import Mathlib

/-!
Verification development for the FieldWorkArena GreenAgent evaluation
harness. The Python sources are embedded shallowly: pure string and
numeric functions become Lean functions over String and over the
rationals (every score the code manipulates is a small exact rational),
exceptions become Except, and the external collaborators (the NLTK
tokenizer, json.loads, the LLM judge completion, the per-task network
steps) become explicit inputs of the functions that consult them.
-/

namespace FWA

/-! ## String helpers reduced to list-of-character operations -/

/-- Single quote character (written by code point to keep literals plain). -/
def squote : Char := Char.ofNat 39

/-- Double quote character. -/
def dquote : Char := Char.ofNat 34

/-- Opening curly brace character. -/
def obrace : Char := Char.ofNat 123

/-- Closing curly brace character. -/
def cbrace : Char := Char.ofNat 125

/-- Lowercasing, as Python str.lower on the ASCII answers involved. -/
def pyLower (s : String) : String := String.mk (s.data.map Char.toLower)

/-- Containment of one character sequence inside another: the needle is a
prefix of some suffix of the haystack. -/
def containsSeq (needle : List Char) : List Char → Bool
  | [] => needle.isEmpty
  | c :: cs => needle.isPrefixOf (c :: cs) || containsSeq needle cs

/-- Substring containment, the Python expression a in b on strings. -/
def pyIn (a b : String) : Bool := containsSeq a.data b.data

/-- Splitting of a character list at every character satisfying p, keeping
empty groups, as Python str.split(sep) does for a one-character sep. -/
def splitBy (p : Char → Bool) : List Char → List (List Char)
  | [] => [[]]
  | x :: xs =>
      let r := splitBy p xs
      if p x then [] :: r
      else
        match r with
        | [] => [[x]]
        | g :: gs => (x :: g) :: gs

/-- Python s.split(c) for a single separator character. -/
def pySplit (c : Char) (s : String) : List String :=
  (splitBy (fun d => d == c) s.data).map String.mk

/-- Python sep.join for a list of strings. -/
def joinSep (sep : String) : List String → String
  | [] => ""
  | [x] => x
  | x :: xs => x ++ sep ++ joinSep sep xs

/-- Whitespace trimming on both ends of a character list. -/
def trimChars (cs : List Char) : List Char :=
  ((cs.dropWhile Char.isWhitespace).reverse.dropWhile Char.isWhitespace).reverse

/-- Value of a run of decimal digits. -/
def digitsVal (cs : List Char) : ℕ :=
  cs.foldl (fun n c => n * 10 + (c.toNat - 48)) 0

/-- Python int() on a string: surrounding whitespace, an optional sign and a
run of decimal digits; anything else raises (rendered as none). -/
def parseIntStr (s : String) : Option ℤ :=
  let cs := trimChars s.data
  let sign : ℤ × List Char :=
    match cs with
    | c :: rest =>
        if c == Char.ofNat 45 then (-1, rest)
        else if c == Char.ofNat 43 then (1, cs.drop 1)
        else (1, cs)
    | [] => (1, [])
  if !sign.2.isEmpty && sign.2.all Char.isDigit then
    some (sign.1 * (digitsVal sign.2 : ℤ))
  else none

/-- Python float() on a string, restricted to the plain decimal numerals the
grading inputs use: surrounding whitespace, an optional sign, digits with an
optional fractional part. Anything else fails, and in the source every such
failure is absorbed by a surrounding try/except. -/
def parseFloatQ (s : String) : Option ℚ :=
  let cs := trimChars s.data
  let sign : ℚ × List Char :=
    match cs with
    | c :: rest =>
        if c == Char.ofNat 45 then (-1, rest)
        else if c == Char.ofNat 43 then (1, cs.drop 1)
        else (1, cs)
    | [] => (1, [])
  let intPart := sign.2.takeWhile Char.isDigit
  let rest := sign.2.drop intPart.length
  match rest with
  | [] =>
      if intPart.isEmpty then none
      else some (sign.1 * (digitsVal intPart : ℚ))
  | c :: frac =>
      if c == Char.ofNat 46 && frac.all Char.isDigit
          && (!intPart.isEmpty || !frac.isEmpty) then
        some (sign.1 * ((digitsVal intPart : ℚ)
          + (digitsVal frac : ℚ) / ((10 : ℚ) ^ frac.length)))
      else none

/-! ## automatic_evaluation.py: the string comparison strategies

clean_answer in the source returns the PAIR (answer.lower(), None), not a
bare string, and the comparison functions receive that pair unchanged.
Python typing is dynamic, so the values flowing through these helpers are
embedded as a small dynamic value type and the TypeError raised when a
pair reaches a string-only operation is modelled explicitly. -/

/-- Dynamic Python values flowing through the answer normalisation
helpers: strings, None, and pairs. -/
inductive PyVal where
  | pstr (s : String)
  | pnone
  | ppair (a b : PyVal)
deriving DecidableEq

/-- Strip one layer of matching surrounding quotes, the two slicing
branches of clean_answer. A one-character quote string passes both the
startswith and the endswith test and becomes empty, matching the Python
slice semantics. -/
def stripQuotes (s : String) : String :=
  match s.data with
  | [] => s
  | c :: cs =>
      let lastc := (c :: cs).getLast (by simp)
      if (c == squote && lastc == squote) || (c == dquote && lastc == dquote) then
        String.mk ((c :: cs).drop 1).dropLast
      else s

/-- clean_answer from automatic_evaluation.py: strips one layer of matching
quotes, lowercases, and returns the pair (answer.lower(), None). -/
def clean_answer (answer : String) : PyVal :=
  .ppair (.pstr (pyLower (stripQuotes answer))) .pnone

/-- exact_match from automatic_evaluation.py: compares the two pairs
returned by clean_answer with Python ==; tuple equality reduces to
equality of the cleaned strings, so this branch works as intended. The
source returns the pair (float(...), None). -/
def exact_match (ref pred : String) : ℚ × Option String :=
  (if clean_answer pred = clean_answer ref then 1 else 0, none)

/-- word_tokenize is the external NLTK tokenizer, supplied abstractly as a
tokenizer on strings; applied to any non-string Python value it raises
TypeError, which is what happens in must_include and must_exclude where it
receives the (string, None) pair produced by clean_answer. -/
def word_tokenize (tok : String → List String) : PyVal → Except String (List String)
  | .pstr s => .ok (tok s)
  | _ => .error "TypeError: expected string or bytes-like object"

/-- Membership of a dynamic value in a list of strings, as the Python
operator in tests it on a list: elementwise equality, and a pair never
equals a string. -/
def pyMemList (v : PyVal) (l : List String) : Bool :=
  l.any (fun s => v == PyVal.pstr s)

/-- Membership of one dynamic value in another, as the Python operator in:
for a pair, equality against its components; for a string on the right, a
substring test that needs a string on the left; None is not iterable. -/
def pyMemVal (v w : PyVal) : Except String Bool :=
  match w with
  | .ppair a b => .ok (v == a || v == b)
  | .pstr t =>
      match v with
      | .pstr s => .ok (pyIn s t)
      | _ => .error "TypeError: in requires string as left operand"
  | .pnone => .error "TypeError: argument of type NoneType is not iterable"

/-- must_include from automatic_evaluation.py, faithful to the source: the
pair returned by clean_answer is handed to word_tokenize, to token-list
membership and to containment exactly as written there. -/
def must_include (tok : String → List String) (ref pred : String) :
    Except String (ℚ × Option String) := do
  let clean_ref := clean_answer ref
  let clean_pred := clean_answer pred
  let refToks ← word_tokenize tok clean_ref
  if refToks.length == 1 then
    let tok_pred ← word_tokenize tok clean_pred
    return (if pyMemList clean_ref tok_pred then 1 else 0, none)
  else
    let b ← pyMemVal clean_ref clean_pred
    return (if b then 1 else 0, none)

/-- must_exclude from automatic_evaluation.py, the negation of the
membership tests of must_include, with the same shape. -/
def must_exclude (tok : String → List String) (ref pred : String) :
    Except String (ℚ × Option String) := do
  let clean_ref := clean_answer ref
  let clean_pred := clean_answer pred
  let refToks ← word_tokenize tok clean_ref
  if refToks.length == 1 then
    let tok_pred ← word_tokenize tok clean_pred
    return (if pyMemList clean_ref tok_pred then 0 else 1, none)
  else
    let b ← pyMemVal clean_ref clean_pred
    return (if b then 0 else 1, none)

/-- Whitespace tokenizer standing in for NLTK word_tokenize on the plain
alphanumeric sentences exercised by the concrete examples (word_tokenize
splits such text at spaces). -/
def simple_tokenize (s : String) : List String :=
  ((splitBy Char.isWhitespace s.data).map String.mk).filter (fun t => !t.isEmpty)

/-- Replacement of every newline by a space, the Python expression
response.replace applied to the one-character newline pattern. -/
def replaceNl (s : String) : String :=
  String.mk (s.data.map (fun c => if c == Char.ofNat 10 then Char.ofNat 32 else c))

/-- llm_fuzzy_match from automatic_evaluation.py, with the LLM completion
supplied as input. The source lowercases the completion, returns 0.0 when
it contains partially correct or incorrect, otherwise asserts that it
contains correct and returns 1.0; a completion with none of the keywords
raises AssertionError. -/
def llm_fuzzy_match (response : String) : Except String (ℚ × Option String) :=
  let r := pyLower response
  if pyIn "partially correct" r || pyIn "incorrect" r then
    .ok (0, none)
  else if pyIn "correct" r then
    .ok (1, none)
  else
    .error "AssertionError"

/-- json_match from automatic_evaluation.py, with the LLM completion
supplied as input: the empty-reference sentinel is tested after the LLM
call and before the keyword checks, and the keyword branches carry the
newline-flattened completion as the reason. -/
def json_match (response reference : String) : Except String (ℚ × Option String) :=
  let r := pyLower response
  if reference == "[ ]" then
    .ok (0, none)
  else if pyIn "partially correct" r || pyIn "incorrect" r then
    .ok (0, some (replaceNl r))
  else if pyIn "correct" r then
    .ok (1, some (replaceNl r))
  else
    .error "AssertionError"

/-! ## automatic_evaluation.py: the numeric comparator -/

/-- Threshold table walk shared by eval_time and eval_distance: the first
pair whose threshold is at least the measured value gives the score,
otherwise 0, exactly the for loop over parallel threshold and score lists
with the index lookup. -/
def tableScore : List (ℚ × ℚ) → ℚ → ℚ
  | [], _ => 0
  | (t, sc) :: rest, d => if d ≤ t then sc else tableScore rest d

/-- eval_time from automatic_evaluation.py: the absolute difference against
the thresholds 1, 5, 10, 30, 60 seconds mapped to 1.0, 0.8, 0.6, 0.4, 0.2,
and 0 beyond. -/
def eval_time (pred reference : ℚ) : ℚ :=
  tableScore (List.zip [1, 5, 10, 30, 60] [1, 4/5, 3/5, 2/5, 1/5]) |pred - reference|

/-- eval_distance from automatic_evaluation.py: relative difference
(the absolute difference divided by the reference, which is not taken in
absolute value) against the ratio thresholds 0.1 to 0.5; a zero reference
raises ValueError. -/
def eval_distance (pred reference : ℚ) : Except String ℚ :=
  if reference = 0 then
    .error "ValueError: Reference value cannot be zero for distance evaluation."
  else
    .ok (tableScore (List.zip [1/10, 1/5, 3/10, 2/5, 1/2] [1, 4/5, 3/5, 2/5, 1/5])
      (|pred - reference| / reference))

/-- JSON values as decoded by json.loads, the fragment numerical_match
inspects. -/
inductive Json where
  | null
  | bool (b : Bool)
  | num (q : ℚ)
  | str (s : String)
  | arr (l : List Json)
  | obj (l : List (String × Json))

/-- Python dict indexing on a decoded value: association lookup with
KeyError for an absent key and TypeError off a non-object. -/
def jsonGet (j : Json) (key : String) : Except String Json :=
  match j with
  | .obj l =>
      match l.lookup key with
      | some v => .ok v
      | none => .error ("KeyError: " ++ key)
  | _ => .error "TypeError: value is not subscriptable"

/-- Python equality of a decoded value against the string incorrect, the
correctness gate of numerical_match: only that exact string compares
equal. -/
def isIncorrect : Json → Bool
  | .str s => s == "incorrect"
  | _ => false

/-- Python int() applied to a decoded JSON value: strings parse as signed
decimal integers, numbers truncate toward zero, booleans count as 0 or 1,
anything else raises (rendered as none and absorbed by the surrounding
try/except in the source). -/
def pyIntOfJson : Json → Option ℤ
  | .str s => parseIntStr s
  | .num q => some (Int.tdiv q.num (q.den : ℤ))
  | .bool b => some (if b then 1 else 0)
  | _ => none

/-- Python float() applied to a decoded JSON value, for the length branch. -/
def pyFloatOfJson : Json → Option ℚ
  | .str s => parseFloatQ s
  | .num q => some q
  | .bool b => some (if b then 1 else 0)
  | _ => none

/-- convert_to_seconds from numerical_match: split at colons, three parts
are hours, minutes and seconds, two are minutes and seconds, one is a bare
float; each part goes through float() and any failure raises into the
surrounding try/except (rendered as none). -/
def convert_to_seconds (s : String) : Option ℚ :=
  match (pySplit (Char.ofNat 58) s).mapM parseFloatQ with
  | some [h, m, sec] => some (h * 3600 + m * 60 + sec)
  | some [m, sec] => some (m * 60 + sec)
  | some [x] => some x
  | _ => none

/-- Value used by the time branch of numerical_match: strings go through
convert_to_seconds, numbers are used directly, booleans count as Python
numbers; other shapes raise inside the try/except (rendered as none). -/
def timeValOfJson : Json → Option ℚ
  | .str s => convert_to_seconds s
  | .num q => some q
  | .bool b => some (if b then 1 else 0)
  | _ => none

/-- The per-type match statement of the numerical_values loop: every
branch wraps its conversions and comparison in a try/except whose handler
passes, so a field always contributes a plain rational (failed conversions
and unknown type tags contribute 0, and the ValueError of a zero length
reference is absorbed too). -/
def contribOf (value_t value_s value_type : Json) : ℚ :=
  match value_type with
  | .str "number" =>
      match pyIntOfJson value_t, pyIntOfJson value_s with
      | some a, some b => if a = b then 1 else 0
      | _, _ => 0
  | .str "time" =>
      match timeValOfJson value_t, timeValOfJson value_s with
      | some t, some s => eval_time s t
      | _, _ => 0
  | .str "length" =>
      match pyFloatOfJson value_t, pyFloatOfJson value_s with
      | some t, some s =>
          match eval_distance s t with
          | .ok q => q
          | .error _ => 0
      | _, _ => 0
  | _ => 0

/-- Per-field step of the numerical_values loop of numerical_match. The
teacher, student and type keys are read outside any try/except, so a
missing key raises KeyError out of the whole function; the rest of the
loop body is the total match of contribOf. -/
def fieldScore (v : Json) : Except String ℚ := do
  let value_t ← jsonGet v "teacher"
  let value_s ← jsonGet v "student"
  let value_type ← jsonGet v "type"
  return contribOf value_t value_s value_type

/-- numerical_match after a successful JSON decode: the correctness gate,
the per-field loop, the average over the number of extracted fields (a
ZeroDivisionError for an empty map, an AttributeError when the value under
numerical_values is not an object), and the verdict/numeric blend. -/
def scoreDecoded (j : Json) (ratio : ℚ) : Except String ℚ := do
  let correctness ← jsonGet j "correctness"
  if isIncorrect correctness then
    return 0
  else
    let nv ← jsonGet j "numerical_values"
    match nv with
    | .obj entries => do
        let contribs ← entries.mapM (fun e => fieldScore e.2)
        let total := contribs.foldl (fun a b => a + b) 0
        if entries.length == 0 then
          .error "ZeroDivisionError: division by zero"
        else
          return (1 - ratio) + (total / (entries.length : ℚ)) * ratio
    | _ => .error "AttributeError: object has no attribute items"

/-- Index of the last occurrence of a character in a list. -/
def findLastIdx (cs : List Char) (c : Char) : Option ℕ :=
  (cs.reverse.findIdx? (fun d => d == c)).map (fun k => cs.length - 1 - k)

/-- The DOTALL greedy regex search of numerical_match for a brace-delimited
block: it matches from the first opening brace through the last closing
brace provided the closing brace comes later, and fails otherwise. -/
def extractBrace (s : String) : Option String :=
  let cs := s.data
  match cs.findIdx? (fun d => d == obrace), findLastIdx cs cbrace with
  | some i, some j =>
      if i < j then some (String.mk ((cs.drop i).take (j - i + 1))) else none
  | _, _ => none

/-- numerical_match from automatic_evaluation.py, with the LLM completion
and the json.loads decoder supplied as inputs. The returned pair mirrors
the Python tuple (score, json_data): a failed regex search or a decode
failure yields (0.0, None), and afterwards the decoded object is scored by
scoreDecoded, whose exceptions propagate out of the function. -/
def numerical_match (loads : String → Option Json) (response : String)
    (ratio : ℚ) : Except String (ℚ × Option Json) :=
  match extractBrace response with
  | none => .ok (0, none)
  | some js =>
      match loads js with
      | none => .ok (0, none)
      | some j =>
          match scoreDecoded j ratio with
          | .ok q => .ok (q, some j)
          | .error e => .error e

/-! ## fwa_green_agent.py: the grading dispatch -/

/-- Value stored into the score field of the FWAEval returned by judge,
before its Python str() rendering: the four unpacking branches store a
bare float, while the json_match and numerical_match branches assign the
whole returned tuple to score without unpacking it, so the stored value is
a (float, reason) pair whose str() rendering does not parse as a float. -/
inductive ScoreVal where
  | num (q : ℚ)
  | tupStr (q : ℚ) (r : Option String)
  | tupJson (q : ℚ) (j : Option Json)

/-- FWAEval from agent/common.py: a single score field. -/
structure FWAEvalM where
  score : ScoreVal

/-- judge from FWAGreenAgent: dispatch over the eval_func name, with the
external tokenizer, json decoder and LLM completion supplied as inputs.
Exceptions escaping the comparison functions propagate to the per-task
handler of run_eval. A name matching no case leaves the initial score 0.0
in place. -/
def judge (tok : String → List String) (loads : String → Option Json)
    (llmResponse : String) (reference predicted eval_func : String) :
    Except String FWAEvalM := do
  match eval_func with
  | "fuzzy_match" => do
      let p ← llm_fuzzy_match llmResponse
      return ⟨.num p.1⟩
  | "exact_match" =>
      return ⟨.num (exact_match reference predicted).1⟩
  | "must_include" => do
      let p ← must_include tok reference predicted
      return ⟨.num p.1⟩
  | "must_exclude" => do
      let p ← must_exclude tok reference predicted
      return ⟨.num p.1⟩
  | "json_match" => do
      let t ← json_match llmResponse reference
      return ⟨.tupStr t.1 t.2⟩
  | "numerical_match" => do
      let t ← numerical_match loads llmResponse (1/2)
      return ⟨.tupJson t.1 t.2⟩
  | _ => return ⟨.num 0⟩

/-! ## fwa_green_agent.py: the evaluation loop and the reporting phase -/

/-- Task entry handed to the loop of run_eval (the fields the loop and its
error handler read). -/
structure PyTask where
  id : String
  eval_func : String

/-- Entry of the task_results list: a successful task records its id, its
score and its eval_func; a failed task records its id, score 0 and the
string rendering of the exception. -/
structure TaskResult where
  task_id : String
  score : ℚ
  eval_func : Option String
  error : Option String
deriving DecidableEq

/-- Body of the per-task try/except of run_eval: the processing of one
task (goal building, file resolution, the conversational turn, grading and
the float conversion of the stored score) is abstracted as an Except
outcome, and the two branches build the appended dict. -/
def taskResultOf (outcome : Except String ℚ) (t : PyTask) : TaskResult :=
  match outcome with
  | .ok s => ⟨t.id, s, some t.eval_func, none⟩
  | .error e => ⟨t.id, 0, none, some e⟩

/-- The task loop of run_eval: each task is processed inside its own
try/except, appending exactly one result and accumulating the score of the
successful ones; an exception never leaves the loop body. -/
def runTasks (outcomeOf : PyTask → Except String ℚ) :
    List PyTask → List TaskResult × ℚ
  | [] => ([], 0)
  | t :: ts =>
      let r := taskResultOf (outcomeOf t) t
      let rest := runTasks outcomeOf ts
      (r :: rest.1, r.score + rest.2)

/-- EvalResult from agent_core/models.py: a pydantic model whose required
fields are target, total_tasks, total_score, score_rate and task_results,
none of them defaulted. -/
structure EvalResult where
  target : String
  total_tasks : ℕ
  total_score : ℚ
  score_rate : ℚ
  task_results : List TaskResult

/-- Pydantic validation of the EvalResult constructor call: every field a
caller may omit is an Option, and a missing required field raises
ValidationError. The reporting phase of run_eval supplies every field
except target. -/
def mkEvalResult (target : Option String) (total_tasks : ℕ)
    (total_score score_rate : ℚ) (task_results : List TaskResult) :
    Except String EvalResult :=
  match target with
  | some tgt => .ok ⟨tgt, total_tasks, total_score, score_rate, task_results⟩
  | none => .error "ValidationError: Field required [target]"

/-- Observable outcome of run_eval after the task loop: either the
EvaluationResult artifact carrying the serialized EvalResult was added, or
the outer exception handler caught an error, logged it and returned
normally without adding the artifact. -/
inductive RunOutcome where
  | artifact (name : String) (result : EvalResult)
  | loggedError (msg : String)

/-- run_eval from FWAGreenAgent, reporting phase included: after the task
loop it computes score_rate (0 for an empty task list), constructs the
EvalResult without supplying the required target field, and would add the
artifact named EvaluationResult; any exception inside the outer try, here
the ValidationError from the constructor call, is caught and only logged. -/
def run_eval (outcomeOf : PyTask → Except String ℚ) (tasks : List PyTask) :
    RunOutcome :=
  let pr := runTasks outcomeOf tasks
  let score_rate := if 0 < tasks.length then pr.2 / (tasks.length : ℚ) else 0
  match mkEvalResult none tasks.length pr.2 score_rate pr.1 with
  | .ok r => .artifact "EvaluationResult" r
  | .error e => .loggedError e

/-! ## run_scenario.py: the scenario supervisor -/

/-- Observable outcome of main from run_scenario.py in run-evaluation mode
for a scenario that parses: whether the evaluation client process was
spawned, and the exit code of the supervisor process. -/
structure MainOutcome where
  clientSpawned : Bool
  exitCode : ℤ

/-- main from run_scenario.py in run-evaluation mode, abstracted over the
result of the readiness poll and the exit status of the spawned client.
When wait_for_agents reports failure, main prints an error and returns,
so the client is not spawned and the interpreter exits with 0; otherwise
the client is spawned, waited for, and its exit code is discarded by
client_proc.wait() before main falls through the finally block and
returns None, again exiting with 0. -/
def runScenarioMain (agentsReady : Bool) (_clientExit : ℤ) : MainOutcome :=
  if agentsReady then
    { clientSpawned := true, exitCode := 0 }
  else
    { clientSpawned := false, exitCode := 0 }

/-! ## task_loader.py: the task catalog -/

/-- Record of a task definition file: the only field the matching scan
reads is the optional id. -/
structure TaskRecord where
  id : Option String
deriving DecidableEq

/-- The truncation rule of load_tasks_by_ids: split the catalog id at the
dots and join the last three segments back with dots, or keep the whole id
when it has fewer than three segments. -/
def taskKey (task_id : String) : String :=
  let parts := pySplit (Char.ofNat 46) task_id
  if 3 ≤ parts.length then
    joinSep "." (parts.drop (parts.length - 3))
  else task_id

/-- load_task_ids from TaskLoader, over the decoded id catalog: the target
all collects every category except custom in catalog order, any other
target must be a key of the catalog, and an empty resulting id list raises
ValueError. -/
def load_task_ids (catalog : List (String × List String)) (target : String) :
    Except String (List String) := do
  let task_ids ←
    if target == "all" then
      pure ((catalog.filter (fun kv => kv.1 != "custom")).map (fun kv => kv.2)).flatten
    else
      match catalog.lookup target with
      | some v => pure v
      | none => Except.error ("KeyError: Target " ++ target ++ " not found")
  if task_ids.isEmpty then
    .error ("ValueError: Task IDs list for target " ++ target ++ " is empty")
  else
    return task_ids

/-- Lexicographic comparison of character lists by code point, the string
ordering Python sorted uses on file names. -/
def ltCharList : List Char → List Char → Bool
  | [], [] => false
  | [], _ :: _ => true
  | _ :: _, [] => false
  | c :: cs, d :: ds =>
      if c.toNat < d.toNat then true
      else if d.toNat < c.toNat then false
      else ltCharList cs ds

/-- String ordering by code point. -/
def ltStr (a b : String) : Bool := ltCharList a.data b.data

/-- Name-ordered insertion of a task definition file, the sorted glob over
the tasks directory. -/
def insertFile (x : String × List TaskRecord) :
    List (String × List TaskRecord) → List (String × List TaskRecord)
  | [] => [x]
  | y :: ys => if ltStr y.1 x.1 then y :: insertFile x ys else x :: y :: ys

/-- Sorting of the task definition files by file name. -/
def sortFiles (files : List (String × List TaskRecord)) :
    List (String × List TaskRecord) :=
  files.foldr insertFile []

/-- The membership test load_tasks_by_ids applies to every record of every
file: the record must carry an id field whose value is one of the
truncated catalog keys. -/
def matchesRecord (keys : List String) (r : TaskRecord) : Bool :=
  match r.id with
  | some i => keys.contains i
  | none => false

/-- load_tasks_by_ids from TaskLoader: build the truncated key set from
the catalog ids of the target, then scan the task files in name order and
keep, in file order then record order, the records whose id is in the
set. -/
def load_tasks_by_ids (catalog : List (String × List String))
    (files : List (String × List TaskRecord)) (target : String) :
    Except String (List TaskRecord) := do
  let task_ids ← load_task_ids catalog target
  let keys := task_ids.map taskKey
  return (((sortFiles files).map (fun f => f.2)).flatten.filter (matchesRecord keys))

/-! ## Concrete scenarios used by the claim theorems -/

/-- Modelled from the spec sentence on the time comparator: a difference of
at most 1 second gives 1.0, at most 5 gives 0.8, at most 10 gives 0.6, at
most 30 gives 0.4, at most 60 gives 0.2, otherwise 0.0. -/
def timeSpecScore (d : ℚ) : ℚ :=
  if d ≤ 1 then 1
  else if d ≤ 5 then 4/5
  else if d ≤ 10 then 3/5
  else if d ≤ 30 then 2/5
  else if d ≤ 60 then 1/5
  else 0

/-- Two-category id catalog of the end-to-end task resolution scenario. -/
def catalogTwo : List (String × List String) :=
  [("A", ["x.1.1.0001"]), ("B", ["x.2.1.0001"])]

/-- The two one-record task definition files of the scenario. -/
def filesTwo : List (String × List TaskRecord) :=
  [("a.json", [⟨some "1.1.0001"⟩]), ("b.json", [⟨some "2.1.0001"⟩])]

/-- Concrete two-task list exercising the failure isolation path. -/
def tasksTwo : List PyTask :=
  [⟨"1.1.0001", "exact_match"⟩, ⟨"2.1.0001", "exact_match"⟩]

/-- Concrete per-task outcomes: the first task raises a transport error,
the second scores 1. -/
def outcomeTwo : PyTask → Except String ℚ := fun t =>
  if t.id == "1.1.0001" then .error "transport error" else .ok 1

/-- Decoder returning an object without the correctness key, the shape of
a decoded judge reply that lacks the expected structure. -/
def loadsNoCorrectness : String → Option Json :=
  fun _ => some (Json.obj [("foo", Json.num 1)])

/-- Decoded judge reply with a partially correct verdict and one numeric
field on which teacher and student disagree completely. -/
def jPartial : Json :=
  Json.obj [("correctness", Json.str "partially correct"),
    ("numerical_values", Json.obj
      [("count", Json.obj [("teacher", Json.num 5), ("student", Json.num 7),
        ("type", Json.str "number")])])]

/-- Decoder used with jPartial. -/
def loadsPartial : String → Option Json := fun _ => some jPartial

/-! ## Shared lemmas -/

/-- The task loop produces exactly the per-task results, in task order. -/
theorem runTasks_fst_eq (outcomeOf : PyTask → Except String ℚ)
    (ts : List PyTask) :
    (runTasks outcomeOf ts).1 = ts.map (fun t => taskResultOf (outcomeOf t) t) := by
  induction ts with
  | nil => rfl
  | cons t ts ih => simp [runTasks, ih]

/-- A threshold table of nonnegative scores never yields a negative score. -/
theorem tableScore_nonneg (tbl : List (ℚ × ℚ)) (d : ℚ)
    (h : ∀ p ∈ tbl, 0 ≤ p.2) : 0 ≤ tableScore tbl d := by
  induction tbl with
  | nil => simp [tableScore]
  | cons p rest ih =>
      obtain ⟨t, sc⟩ := p
      simp only [tableScore]
      split
      · exact h (t, sc) (by simp)
      · exact ih (fun q hq => h q (List.mem_cons_of_mem _ hq))

/-- The time comparator never yields a negative score. -/
theorem eval_time_nonneg (p r : ℚ) : 0 ≤ eval_time p r := by
  refine tableScore_nonneg _ _ ?_
  intro q hq
  fin_cases hq <;> norm_num

/-- The length comparator never yields a negative score. -/
theorem eval_distance_nonneg (p r q : ℚ) (h : eval_distance p r = Except.ok q) :
    0 ≤ q := by
  unfold eval_distance at h
  split at h
  · cases h
  · cases h
    refine tableScore_nonneg _ _ ?_
    intro x hx
    fin_cases hx <;> norm_num

/-- Every per-field contribution of the numeric loop is nonnegative. -/
theorem contribOf_nonneg (value_t value_s value_type : Json) :
    0 ≤ contribOf value_t value_s value_type := by
  unfold contribOf
  split
  · split
    · split <;> norm_num
    · norm_num
  · split
    · exact eval_time_nonneg _ _
    · norm_num
  · split
    · split
      · exact eval_distance_nonneg _ _ _ (by assumption)
      · norm_num
    · norm_num
  · norm_num

/-- A successful field score is nonnegative. -/
theorem fieldScore_nonneg (v : Json) (q : ℚ) (h : fieldScore v = Except.ok q) :
    0 ≤ q := by
  unfold fieldScore at h
  cases h1 : jsonGet v "teacher" with
  | error e => rw [h1] at h; cases h
  | ok t =>
      rw [h1] at h
      cases h2 : jsonGet v "student" with
      | error e => rw [h2] at h; cases h
      | ok s =>
          rw [h2] at h
          cases h3 : jsonGet v "type" with
          | error e => rw [h3] at h; cases h
          | ok ty =>
              rw [h3] at h
              cases h
              exact contribOf_nonneg t s ty

/-- A list of uniformly successful field scores maps to a list of
nonnegative rationals. -/
theorem mapM_fieldScore_ok (entries : List (String × Json))
    (h : ∀ e ∈ entries, ∃ q, fieldScore e.2 = Except.ok q) :
    ∃ qs, entries.mapM (fun e => fieldScore e.2) = Except.ok qs
      ∧ ∀ q ∈ qs, 0 ≤ q := by
  induction entries with
  | nil => exact ⟨[], rfl, by simp⟩
  | cons e rest ih =>
      obtain ⟨q, hq⟩ := h e (List.mem_cons_self _ _)
      obtain ⟨qs, hqs, hpos⟩ := ih (fun x hx => h x (List.mem_cons_of_mem _ hx))
      refine ⟨q :: qs, ?_, ?_⟩
      · rw [List.mapM_cons, hq, hqs]; rfl
      · intro p hp
        rcases List.mem_cons.mp hp with h1 | h2
        · subst h1; exact fieldScore_nonneg _ _ hq
        · exact hpos p h2

/-- Left fold of addition over nonnegative rationals, from a nonnegative
seed, stays nonnegative. -/
theorem foldl_add_nonneg (l : List ℚ) (a : ℚ) (ha : 0 ≤ a)
    (h : ∀ q ∈ l, 0 ≤ q) : 0 ≤ l.foldl (fun x y => x + y) a := by
  induction l generalizing a with
  | nil => simpa using ha
  | cons q rest ih =>
      simp only [List.foldl]
      exact ih _ (add_nonneg ha (h q (List.mem_cons_self _ _)))
        (fun p hp => h p (List.mem_cons_of_mem _ hp))

/-! ## Claim theorems -/

/-- C1: the claim says every run whose task loop completes constructs the
final EvalResult and emits it as the EvaluationResult artifact. The code
cannot: models.py declares target as a required field of EvalResult and
run_eval constructs the record without it, so the constructor raises
ValidationError, the outer handler catches and only logs it, and no run
ever adds the artifact (the executor then still completes the run). -/
theorem run_eval_never_emits_artifact
    (outcomeOf : PyTask → Except String ℚ) (tasks : List PyTask) :
    run_eval outcomeOf tasks
      = RunOutcome.loggedError "ValidationError: Field required [target]" := rfl

/-- C2: the claim says the score field of the FWAEval returned by judge
always parses as a float in [0,1]. For json_match the source binds the
whole (score, reason) tuple to score without unpacking it, so the stored
value is a tuple and its str() rendering is not a float; and for
must_include the dispatch raises the TypeError described at C9 instead of
returning at all. -/
theorem judge_score_not_always_numeric :
    judge simple_tokenize (fun _ => none) "correct" "ref" "pred" "json_match"
        = Except.ok ⟨ScoreVal.tupStr 1 (some "correct")⟩
    ∧ (∀ q : ℚ, ScoreVal.tupStr 1 (some "correct") ≠ ScoreVal.num q)
    ∧ judge simple_tokenize (fun _ => none) "correct" "0" "the value is 0 today"
          "must_include"
        = Except.error "TypeError: expected string or bytes-like object" := by
  refine ⟨rfl, ?_, rfl⟩
  intro q h
  exact ScoreVal.noConfusion h

/-- C3: a task whose processing raises is recorded as exactly one result
with score 0 and the exception text in its error field, the loop runs
every task (one result per task, in order), and a non-empty exception
rendering yields a non-empty error string. -/
theorem run_eval_isolates_task_failures
    (outcomeOf : PyTask → Except String ℚ) (tasks : List PyTask)
    (i : ℕ) (hi : i < tasks.length) (msg : String)
    (herr : outcomeOf (tasks.get ⟨i, hi⟩) = Except.error msg)
    (hmsg : msg ≠ "") :
    (runTasks outcomeOf tasks).1
        = tasks.map (fun t => taskResultOf (outcomeOf t) t)
    ∧ taskResultOf (outcomeOf (tasks.get ⟨i, hi⟩)) (tasks.get ⟨i, hi⟩)
        = ⟨(tasks.get ⟨i, hi⟩).id, 0, none, some msg⟩
    ∧ msg ≠ ""
    ∧ (runTasks outcomeOf tasks).1.length = tasks.length := by
  refine ⟨runTasks_fst_eq _ _, ?_, hmsg, ?_⟩
  · rw [herr]; rfl
  · rw [runTasks_fst_eq]; exact tasks.length_map _

/-- Witness for C3: a concrete two-task run whose first task raises a
transport error still records both tasks, the first with score 0 and the
error text. -/
theorem run_eval_isolates_task_failures_witness :
    outcomeTwo (tasksTwo.get ⟨0, by decide⟩) = Except.error "transport error"
    ∧ ((runTasks outcomeTwo tasksTwo).1
          = tasksTwo.map (fun t => taskResultOf (outcomeTwo t) t)
      ∧ taskResultOf (outcomeTwo (tasksTwo.get ⟨0, by decide⟩))
            (tasksTwo.get ⟨0, by decide⟩)
          = ⟨(tasksTwo.get ⟨0, by decide⟩).id, 0, none, some "transport error"⟩
      ∧ "transport error" ≠ ""
      ∧ (runTasks outcomeTwo tasksTwo).1.length = tasksTwo.length) :=
  ⟨rfl, run_eval_isolates_task_failures outcomeTwo tasksTwo 0 (by decide)
    "transport error" rfl (by decide)⟩

/-- C4: a record matches exactly when its id field equals the join of the
last three dot-segments of some catalog id (the whole id when it has fewer
than three segments), and on the two-category catalog with two one-record
files, resolving all returns both records in file order while resolving A
returns exactly one. -/
theorem task_matching_by_truncated_ids :
    (∀ (ids : List String) (r : TaskRecord),
        matchesRecord (ids.map taskKey) r = true
          ↔ ∃ tid, tid ∈ ids ∧ r.id = some (taskKey tid))
    ∧ taskKey "x.1.1.0001" = "1.1.0001"
    ∧ taskKey "a.b" = "a.b"
    ∧ load_tasks_by_ids catalogTwo filesTwo "all"
        = Except.ok [⟨some "1.1.0001"⟩, ⟨some "2.1.0001"⟩]
    ∧ load_tasks_by_ids catalogTwo filesTwo "A"
        = Except.ok [⟨some "1.1.0001"⟩] := by
  refine ⟨?_, rfl, rfl, rfl, rfl⟩
  intro ids r
  cases hr : r.id with
  | none => simp [matchesRecord, hr]
  | some i =>
      simp only [matchesRecord, hr, Option.some.injEq]
      constructor
      · intro h
        obtain ⟨tid, htid, hkey⟩ := List.mem_map.mp (List.elem_iff.mp h)
        exact ⟨tid, htid, hkey.symm⟩
      · rintro ⟨tid, htid, hkey⟩
        exact List.elem_iff.mpr (List.mem_map.mpr ⟨tid, htid, hkey.symm⟩)

/-- C5: the claim says the supervisor exits non-zero when readiness times
out or the client process fails. The code bug: main prints an error and
returns None in both situations, so the interpreter exit code is 0 in
every branch; on timeout the client is at least not spawned. -/
theorem supervisor_exit_code_always_zero :
    (∀ c : ℤ, runScenarioMain false c
        = { clientSpawned := false, exitCode := 0 })
    ∧ runScenarioMain true 2 = { clientSpawned := true, exitCode := 0 } :=
  ⟨fun _ => rfl, rfl⟩

/-- C6 counterexample: a judge completion whose extracted block decodes to
an object without the correctness key makes numerical_match raise KeyError
instead of returning 0.0, refuting the claim for the lacking-structure
case. -/
theorem numerical_match_raises_on_missing_keys :
    numerical_match loadsNoCorrectness "\x7bfoo: 1\x7d" (1/2)
      = Except.error "KeyError: correctness" := rfl

/-- C6 amended: when no JSON object is present in the judge completion, or
the extracted block does not decode, numerical_match returns (0.0, None)
and does not raise. -/
theorem numerical_match_total_on_parse_failures
    (loads : String → Option Json) (response : String) (ratio : ℚ)
    (h : (extractBrace response).bind loads = none) :
    numerical_match loads response ratio = Except.ok (0, none) := by
  unfold numerical_match
  cases hx : extractBrace response with
  | none => rfl
  | some js =>
      rw [hx] at h
      simp only [Option.some_bind] at h
      simp only [h]

/-- Witness for C6 amended, at a completion with no brace-delimited block
and a decoder that always fails. -/
theorem numerical_match_total_on_parse_failures_witness :
    ((extractBrace "not a json object").bind (fun _ => (none : Option Json)) = none)
    ∧ numerical_match (fun _ => (none : Option Json)) "not a json object" (1/2)
        = Except.ok (0, none) :=
  ⟨rfl, numerical_match_total_on_parse_failures _ _ _ rfl⟩

/-- C7: the task loop of run_eval produces exactly one task result per
attempted task, in task order, and a failed task is recorded with score 0
and an error field. -/
theorem task_results_one_per_task
    (outcomeOf : PyTask → Except String ℚ) (tasks : List PyTask) :
    (runTasks outcomeOf tasks).1.length = tasks.length
    ∧ (runTasks outcomeOf tasks).1
        = tasks.map (fun t => taskResultOf (outcomeOf t) t)
    ∧ (∀ (t : PyTask) (msg : String),
        taskResultOf (Except.error msg) t = ⟨t.id, 0, none, some msg⟩) := by
  refine ⟨?_, runTasks_fst_eq _ _, fun t msg => rfl⟩
  rw [runTasks_fst_eq]
  exact tasks.length_map _

/-- C8: the time branch converts hh:mm:ss, mm:ss and ss text to seconds
and keeps numeric values as they are, the per-field score is the
spec-shaped function of the absolute difference, and the two concrete
reference/prediction pairs score 1.0 and 0.0. -/
theorem time_branch_grading :
    (∀ p r : ℚ, eval_time p r = timeSpecScore |p - r|)
    ∧ (∀ q : ℚ, timeValOfJson (Json.num q) = some q)
    ∧ convert_to_seconds "00:00:10" = some 10
    ∧ convert_to_seconds "00:00:11" = some 11
    ∧ convert_to_seconds "00:01:20" = some 80
    ∧ convert_to_seconds "01:20" = some 80
    ∧ convert_to_seconds "10" = some 10
    ∧ fieldScore (Json.obj [("teacher", Json.str "00:00:10"),
        ("student", Json.str "00:00:11"), ("type", Json.str "time")])
        = Except.ok 1
    ∧ fieldScore (Json.obj [("teacher", Json.str "00:00:10"),
        ("student", Json.str "00:01:20"), ("type", Json.str "time")])
        = Except.ok 0 := by
  have h10 : convert_to_seconds "00:00:10" = some 10 := by
    simp [convert_to_seconds, pySplit, splitBy, List.mapM, List.mapM.loop,
      parseFloatQ, trimChars, digitsVal]
  have h11 : convert_to_seconds "00:00:11" = some 11 := by
    simp [convert_to_seconds, pySplit, splitBy, List.mapM, List.mapM.loop,
      parseFloatQ, trimChars, digitsVal]
  have h80 : convert_to_seconds "00:01:20" = some 80 := by
    simp [convert_to_seconds, pySplit, splitBy, List.mapM, List.mapM.loop,
      parseFloatQ, trimChars, digitsVal]
    norm_num
  refine ⟨fun p r => rfl, fun q => rfl, h10, h11, h80, ?_, ?_, ?_, ?_⟩
  · simp [convert_to_seconds, pySplit, splitBy, List.mapM, List.mapM.loop,
      parseFloatQ, trimChars, digitsVal]
    norm_num
  · simp [convert_to_seconds, pySplit, splitBy, List.mapM, List.mapM.loop,
      parseFloatQ, trimChars, digitsVal]
  · simp [fieldScore, contribOf, jsonGet, List.lookup, timeValOfJson, h10, h11,
      Except.bind, bind, pure, Except.pure, eval_time, tableScore]
    norm_num
  · simp [fieldScore, contribOf, jsonGet, List.lookup, timeValOfJson, h10, h80,
      Except.bind, bind, pure, Except.pure, eval_time, tableScore]
    norm_num

/-- C9: the claim describes the token-membership semantics of
must_include. The code bug: clean_answer returns the tuple
(lowered string, None) and must_include passes that tuple to
word_tokenize, so every call raises TypeError (caught upstream by the
per-task handler); in particular both concrete examples of the claim raise
instead of returning 0.0 and 1.0. -/
theorem must_include_always_raises :
    must_include simple_tokenize "0" "the value is 90 today"
        = Except.error "TypeError: expected string or bytes-like object"
    ∧ must_include simple_tokenize "0" "the value is 0 today"
        = Except.error "TypeError: expected string or bytes-like object"
    ∧ (∀ (tok : String → List String) (ref pred : String),
        must_include tok ref pred
          = Except.error "TypeError: expected string or bytes-like object") :=
  ⟨rfl, rfl, fun _ _ _ => rfl⟩

/-- C10: when the judge completion decodes to an object whose correctness
is not the string incorrect and whose numerical_values is a non-empty map
of well-formed entries, numerical_match returns a score of at least
1 - ratio, hence strictly positive: a partially correct verdict cannot
score 0 even if every numeric field disagrees. -/
theorem numerical_match_partial_floor
    (loads : String → Option Json) (response js : String) (j c : Json)
    (entries : List (String × Json)) (ratio : ℚ)
    (hx : extractBrace response = some js) (hl : loads js = some j)
    (hc : jsonGet j "correctness" = Except.ok c)
    (hcne : isIncorrect c = false)
    (hnv : jsonGet j "numerical_values" = Except.ok (Json.obj entries))
    (hne : entries ≠ [])
    (hwf : ∀ e ∈ entries, ∃ q, fieldScore e.2 = Except.ok q)
    (hr0 : 0 ≤ ratio) (hr1 : ratio < 1) :
    ∃ q, numerical_match loads response ratio = Except.ok (q, some j)
      ∧ 1 - ratio ≤ q ∧ 0 < q := by
  obtain ⟨qs, hqs, hpos⟩ := mapM_fieldScore_ok entries hwf
  have hlen : (entries.length == 0) = false := by
    cases entries with
    | nil => exact absurd rfl hne
    | cons e rest => rfl
  have hscore : scoreDecoded j ratio
      = Except.ok ((1 - ratio)
          + ((qs.foldl (fun x y => x + y) 0) / (entries.length : ℚ)) * ratio) := by
    unfold scoreDecoded
    rw [hc]
    simp only [bind, Except.bind, hcne, Bool.false_eq_true, if_false]
    rw [hnv]
    simp only [hqs, hlen]
    rfl
  have htot : 0 ≤ qs.foldl (fun x y => x + y) 0 :=
    foldl_add_nonneg qs 0 le_rfl hpos
  have hlenpos : (0 : ℚ) < (entries.length : ℚ) := by
    cases entries with
    | nil => exact absurd rfl hne
    | cons e rest => exact_mod_cast Nat.succ_pos rest.length
  have hblend : 0 ≤ ((qs.foldl (fun x y => x + y) 0) / (entries.length : ℚ)) * ratio :=
    mul_nonneg (div_nonneg htot (le_of_lt hlenpos)) hr0
  refine ⟨(1 - ratio)
      + ((qs.foldl (fun x y => x + y) 0) / (entries.length : ℚ)) * ratio,
    ?_, ?_, ?_⟩
  · unfold numerical_match
    simp only [hx, hl, hscore]
  · linarith
  · linarith

/-- Witness for C10: a partially correct verdict with one completely
disagreeing number field still scores at least one half under the default
split. -/
theorem numerical_match_partial_floor_witness :
    extractBrace "\x7b\x7d" = some "\x7b\x7d"
    ∧ loadsPartial "\x7b\x7d" = some jPartial
    ∧ (0 : ℚ) ≤ 1/2 ∧ (1/2 : ℚ) < 1
    ∧ ∃ q, numerical_match loadsPartial "\x7b\x7d" (1/2) = Except.ok (q, some jPartial)
        ∧ 1 - (1/2 : ℚ) ≤ q ∧ 0 < q :=
  ⟨rfl, rfl, by norm_num, by norm_num,
    numerical_match_partial_floor loadsPartial "\x7b\x7d" "\x7b\x7d" jPartial
      (Json.str "partially correct")
      [("count", Json.obj [("teacher", Json.num 5), ("student", Json.num 7),
        ("type", Json.str "number")])]
      (1/2) rfl rfl rfl rfl rfl (List.cons_ne_nil _ _)
      (by
        intro e he
        rw [List.mem_singleton] at he
        subst he
        exact ⟨0, rfl⟩)
      (by norm_num) (by norm_num)⟩

end FWA
